import Mathlib

/-!
Verification development for the Guardio "Pokemon Center Dashboard"
repository: a shallow embedding of the frontend components
(ActiveCheckins, useApi hooks, Machines comparison view) and of the
metrics aggregation core described by the specification, together with
theorems settling the specification claims.

TypeScript numbers are embedded as Int where the code only ever holds
integers (ids, counts, HP) and as Rat where fractional values occur
(minutes in treatment, rates).  Nullable fields become Option, thrown
exceptions become an explicit outcome value that the handler consumes.
-/

/-- One row of the active check-ins endpoint, as declared by the
frontend interface ActiveCheckin. -/
structure ActiveCheckin where
  id : Int
  pokemon_id : Int
  pokemon_name : String
  type_primary : String
  type_secondary : Option String
  machine_id : Int
  machine_name : String
  machine_location : String
  arrived_at : String
  initial_hp : Int
  max_hp : Int
  minutes_in_treatment : Rat
  deriving Repr, DecidableEq

/-- Response shape of GET /checkins/active, as declared by the frontend
interface ActiveCheckinsResponse. -/
structure ActiveCheckinsResponse where
  active_checkins : List ActiveCheckin
  count : Int
  deriving Repr, DecidableEq

/-- The outcome selector of the dismiss dialog: the component state
dismissOutcome has TypeScript type "success" | "fail". -/
inductive DismissOutcome where
  | success
  | fail
  deriving Repr, DecidableEq

/-- The literal string value the component holds and sends for each
outcome. -/
def DismissOutcome.toParam : DismissOutcome → String
  | .success => "success"
  | .fail => "fail"

/-- The URL handleDismiss POSTs to:
/checkins/dismiss/ID?outcome=OUTCOME. -/
def dismissRequestUrl (id : Int) (o : DismissOutcome) : String :=
  "/checkins/dismiss/" ++ toString id ++ "?outcome=" ++ o.toParam

/-- The component state of ActiveCheckins that handleDismiss reads and
writes (the useState hooks of the component). -/
structure CheckinsPageState where
  checkins : Option ActiveCheckinsResponse
  loading : Bool
  error : Option String
  dismissDialogOpen : Bool
  selectedCheckin : Option ActiveCheckin
  dismissOutcome : DismissOutcome
  dismissing : Bool
  deriving Repr

/-- Result of the awaited fetchApi call inside handleDismiss: either the
request succeeded, or it threw — carrying some message when the thrown
value was an Error and none otherwise. -/
inductive DismissResult where
  | ok
  | err (msg : Option String)

/-- The error text the catch branch stores:
err instanceof Error ? err.message : "Failed to dismiss check-in". -/
def dismissErrorText : Option String → String
  | some m => m
  | none => "Failed to dismiss check-in"

/-- The setCheckins updater handleDismiss runs on success: keep null as
null, otherwise drop every entry whose id equals the selected id and
decrement count by one. -/
def updateAfterDismiss (selId : Int) :
    Option ActiveCheckinsResponse → Option ActiveCheckinsResponse
  | some prev => some { prev with
      active_checkins := prev.active_checkins.filter (fun c => c.id != selId),
      count := prev.count - 1 }
  | none => none

/-- handleDismiss as a state transformer: given the component state and
the outcome of the dismiss request, the state after the handler
finishes.  With no selected check-in the handler returns at once.  On
success it applies updateAfterDismiss, closes the dialog and clears the
selection; on failure it only stores the error text.  The dismissing
flag is set for the duration of the call and cleared in the finally
block, so it ends false on every path through the body. -/
def handleDismiss (s : CheckinsPageState) (r : DismissResult) :
    CheckinsPageState :=
  match s.selectedCheckin with
  | none => s
  | some sel =>
    match r with
    | .ok =>
        { s with checkins := updateAfterDismiss sel.id s.checkins,
                 dismissDialogOpen := false,
                 selectedCheckin := none,
                 dismissing := false }
    | .err m =>
        { s with error := some (dismissErrorText m),
                 dismissing := false }

/-- JavaScript Math.round: round half up, as floor of x + 1/2. -/
def jsRound (x : Rat) : Int := ⌊x + 1 / 2⌋

/-- JavaScript number truncation toward zero, used by the % operator. -/
def jsTrunc (x : Rat) : Int := if 0 ≤ x then ⌊x⌋ else -⌊-x⌋

/-- JavaScript remainder a % b: a - b * trunc(a / b). -/
def jsRem (a b : Rat) : Rat := a - b * (jsTrunc (a / b) : Int)

/-- formatTreatmentTime from the ActiveCheckins component: minutes under
60 render as rounded whole minutes, otherwise as floored hours plus
rounded remainder minutes. -/
def formatTreatmentTime (minutes : Rat) : String :=
  if minutes < 60 then
    toString (jsRound minutes) ++ " min"
  else
    let hours := ⌊minutes / 60⌋
    let mins := jsRound (jsRem minutes 60)
    toString hours ++ "h " ++ toString mins ++ "m"

/-- The claim's reading of formatTreatmentTime, with the remainder
minutes written as the mathematical floor remainder
minutes - 60 * floor(minutes / 60). -/
def formatTreatmentTimeClaim (minutes : Rat) : String :=
  if minutes < 60 then
    toString (jsRound minutes) ++ " min"
  else
    toString (⌊minutes / 60⌋) ++ "h "
      ++ toString (jsRound (minutes - 60 * (⌊minutes / 60⌋ : Int))) ++ "m"

example : formatTreatmentTime 125 = "2h 5m" := by
  norm_num [formatTreatmentTime, jsRound, jsRem, jsTrunc]
  rfl
example : jsRound (5/2) = 3 := by norm_num [jsRound]

/-- Splitting a list by a Boolean predicate splits its length. -/
theorem length_filter_not_add_length_filter {α : Type} (l : List α)
    (p : α → Bool) :
    (l.filter (fun a => !(p a))).length + (l.filter p).length = l.length := by
  induction l with
  | nil => rfl
  | cons a t ih =>
    simp only [List.filter_cons]
    by_cases h : p a <;> simp [h] <;> omega

/-- A concrete check-in used to instantiate the dismiss theorems. -/
def sampleCheckin : ActiveCheckin :=
  { id := 1, pokemon_id := 25, pokemon_name := "Pikachu",
    type_primary := "electric", type_secondary := none,
    machine_id := 2, machine_name := "HM-01",
    machine_location := "Floor 1", arrived_at := "2024-01-01 10:00:00",
    initial_hp := 10, max_hp := 35, minutes_in_treatment := 42 }

/-- A concrete response holding exactly the sample check-in. -/
def sampleResponse : ActiveCheckinsResponse :=
  { active_checkins := [sampleCheckin], count := 1 }

/-- A concrete component state with the sample check-in selected. -/
def sampleState : CheckinsPageState :=
  { checkins := some sampleResponse, loading := false, error := none,
    dismissDialogOpen := true, selectedCheckin := some sampleCheckin,
    dismissOutcome := .success, dismissing := false }

/-- Claim C1: when the dismiss request succeeds, handleDismiss removes
every entry with the dismissed id from the active list and decrements
the count by exactly one, so the dismissed check-in no longer appears;
when the request fails, the check-ins list and count are unchanged and
only the error message is stored (dialog and selection stay as they
were). -/
theorem handleDismiss_updatesState (s : CheckinsPageState)
    (sel : ActiveCheckin) (p : ActiveCheckinsResponse) (m : Option String)
    (hsel : s.selectedCheckin = some sel) (hck : s.checkins = some p) :
    (∃ q, (handleDismiss s .ok).checkins = some q ∧
        q.active_checkins = p.active_checkins.filter (fun c => c.id != sel.id) ∧
        q.count = p.count - 1 ∧
        ∀ c ∈ q.active_checkins, c.id ≠ sel.id) ∧
    ((handleDismiss s (.err m)).checkins = s.checkins ∧
      (handleDismiss s (.err m)).error = some (dismissErrorText m) ∧
      (handleDismiss s (.err m)).selectedCheckin = s.selectedCheckin ∧
      (handleDismiss s (.err m)).dismissDialogOpen = s.dismissDialogOpen) := by
  unfold handleDismiss
  rw [hsel]
  refine ⟨⟨{ p with
      active_checkins := p.active_checkins.filter (fun c => c.id != sel.id),
      count := p.count - 1 }, ?_, rfl, rfl, ?_⟩, by simp⟩
  · simp [updateAfterDismiss, hck]
  · intro c hc
    have := List.of_mem_filter hc
    simpa [bne_iff_ne] using this

/-- Witness for C1 at a concrete state: one active check-in, dismissed
successfully or failing with message boom. -/
theorem handleDismiss_updatesState_witness :
    (∃ q, (handleDismiss sampleState .ok).checkins = some q ∧
        q.active_checkins =
          sampleResponse.active_checkins.filter
            (fun c => c.id != sampleCheckin.id) ∧
        q.count = sampleResponse.count - 1 ∧
        ∀ c ∈ q.active_checkins, c.id ≠ sampleCheckin.id) ∧
    ((handleDismiss sampleState (.err (some "boom"))).checkins =
        sampleState.checkins ∧
      (handleDismiss sampleState (.err (some "boom"))).error =
        some (dismissErrorText (some "boom")) ∧
      (handleDismiss sampleState (.err (some "boom"))).selectedCheckin =
        sampleState.selectedCheckin ∧
      (handleDismiss sampleState (.err (some "boom"))).dismissDialogOpen =
        sampleState.dismissDialogOpen) :=
  handleDismiss_updatesState sampleState sampleCheckin sampleResponse
    (some "boom") rfl rfl

/-- Claim C8: if the count equals the list length before the optimistic
update, then after a successful dismiss the equality holds again exactly
when the selected id occurred exactly once in the list; with zero or
several occurrences the update (which always subtracts one from the
count but removes every occurrence from the list) breaks it. -/
theorem handleDismiss_countInvariant (s : CheckinsPageState)
    (sel : ActiveCheckin) (p q : ActiveCheckinsResponse)
    (hsel : s.selectedCheckin = some sel) (hck : s.checkins = some p)
    (hinv : p.count = p.active_checkins.length)
    (hq : (handleDismiss s .ok).checkins = some q) :
    ((p.active_checkins.filter (fun c => c.id == sel.id)).length = 1 →
        q.count = q.active_checkins.length) ∧
    ((p.active_checkins.filter (fun c => c.id == sel.id)).length ≠ 1 →
        q.count ≠ q.active_checkins.length) := by
  unfold handleDismiss at hq
  rw [hsel] at hq
  simp only [updateAfterDismiss, hck, Option.some.injEq] at hq
  have hsplit :
      (p.active_checkins.filter (fun c => c.id != sel.id)).length +
        (p.active_checkins.filter (fun c => c.id == sel.id)).length =
        p.active_checkins.length := by
    have h := length_filter_not_add_length_filter p.active_checkins
      (fun c => c.id == sel.id)
    simpa [bne] using h
  have hqc : q.count = p.count - 1 := by rw [← hq]
  have hql : q.active_checkins =
      p.active_checkins.filter (fun c => c.id != sel.id) := by rw [← hq]
  rw [hqc, hql, hinv]
  constructor <;> intro hocc <;> omega

/-- Witness for C8 at the sample state: the selected id occurs exactly
once, and the updated response keeps count equal to length. -/
theorem handleDismiss_countInvariant_witness :
    ({ active_checkins := [], count := 0 } : ActiveCheckinsResponse).count =
      ({ active_checkins := [], count := 0 } :
        ActiveCheckinsResponse).active_checkins.length :=
  (handleDismiss_countInvariant sampleState sampleCheckin sampleResponse
      { active_checkins := [], count := 0 } rfl rfl (by decide) rfl).1
    (by decide)

/-- Claim C10: for non-negative minutes, formatTreatmentTime renders
rounded whole minutes below 60 and otherwise splits with floor on the
hour quotient and Math.round on the remainder, as the claim states it
with the mathematical floor remainder. -/
theorem formatTreatmentTime_matchesClaim (minutes : Rat)
    (h : 0 ≤ minutes) :
    formatTreatmentTime minutes = formatTreatmentTimeClaim minutes := by
  unfold formatTreatmentTime formatTreatmentTimeClaim
  by_cases hm : minutes < 60
  · simp [hm]
  · have hrem : jsRem minutes 60 = minutes - 60 * (⌊minutes / 60⌋ : Int) := by
      unfold jsRem jsTrunc
      rw [if_pos (by positivity)]
    simp [hm, hrem]

/-- Witness for C10 at minutes = 125 (which formats as 2h 5m). -/
theorem formatTreatmentTime_matchesClaim_witness :
    formatTreatmentTime 125 = formatTreatmentTimeClaim 125 :=
  formatTreatmentTime_matchesClaim 125 (by decide)

/-- The state record of the useApi hook. -/
structure UseApiState (T : Type) where
  data : Option T
  loading : Bool
  error : Option String
  deriving Repr, DecidableEq

/-- Outcome of an awaited fetchApi call: parsed data on success, or a
throw — carrying some message when the thrown value was an Error and
none otherwise. -/
inductive FetchOutcome (T : Type) where
  | success (data : T)
  | failure (errMessage : Option String)

/-- The error text both hooks store in their catch branch:
err instanceof Error ? err.message : "An error occurred". -/
def hookErrorText : Option String → String
  | some m => m
  | none => "An error occurred"

/-- fetchData of useApi as a function from the fetch outcome to the
final hook state.  The handler first sets loading true and error null,
then on either branch replaces the whole state, so the final state does
not depend on the previous one. -/
def useApiFetchData (T : Type) (outcome : FetchOutcome T) : UseApiState T :=
  match outcome with
  | .success d => { data := some d, loading := false, error := none }
  | .failure mo =>
      { data := none, loading := false, error := some (hookErrorText mo) }

/-- mutate of useMutation as a function from the fetch outcome to the
value the promise resolves to, the final loading flag and the final
error state.  mutate sets loading true and error null on entry; both
branches then set loading false, the catch branch stores the error text
and returns null. -/
def useMutationMutate (T : Type) (outcome : FetchOutcome T) :
    Option T × Bool × Option String :=
  match outcome with
  | .success d => (some d, false, none)
  | .failure mo => (none, false, some (hookErrorText mo))

/-- Claim C9: both hooks are total over every fetch outcome — no
exceptional result escapes to the caller.  On failure, mutate resolves
to null with the error state holding the failure message (the thrown
message when present, the fallback text otherwise), and fetchData
leaves data null, loading false and a non-null error; on success the
error state is null and the parsed data is returned. -/
theorem useApi_hooks_errorHandling (T : Type) (d : T) (mo : Option String)
    (m : String) :
    (useMutationMutate T (.failure mo)).1 = none ∧
    (useMutationMutate T (.failure mo)).2.1 = false ∧
    (useMutationMutate T (.failure mo)).2.2 = some (hookErrorText mo) ∧
    (useMutationMutate T (.failure (some m))).2.2 = some m ∧
    useApiFetchData T (.failure mo) =
      { data := none, loading := false, error := some (hookErrorText mo) } ∧
    (useApiFetchData T (.failure mo)).error ≠ none ∧
    (useApiFetchData T (.success d)).error = none ∧
    (useApiFetchData T (.success d)).data = some d ∧
    useMutationMutate T (.success d) = (some d, false, none) := by
  refine ⟨rfl, rfl, rfl, rfl, rfl, ?_, rfl, rfl, rfl⟩
  simp [useApiFetchData]

/-- A check-in row as the spec lists it for the Record Store Adapter:
id, subject_id, machine_id, arrived_at, healed_at (nullable), outcome
(nullable while active), initial_hp, max_hp.  The outcome values are the
ones the repository actually uses (DismissOutcome). -/
structure Checkin where
  id : Int
  subject_id : Int
  machine_id : Int
  arrived_at : String
  healed_at : Option String
  outcome : Option DismissOutcome
  initial_hp : Int
  max_hp : Int
  deriving Repr, DecidableEq

/-- A check-in is active iff its completion timestamp is absent. -/
def isActive (c : Checkin) : Bool := c.healed_at.isNone

/-- Modelled from the spec: the dismiss mutation (its backend handler is
not in the repository snapshot) sets the completion timestamp together
with the outcome, the only mutation a check-in row ever receives. -/
def dismissCheckin (c : Checkin) (o : DismissOutcome) (t : String) :
    Checkin :=
  { c with healed_at := some t, outcome := some o }

/-- Number of completed check-ins: completion timestamp present. -/
def completedCount (cs : List Checkin) : Nat :=
  (cs.filter (fun c => !(isActive c))).length

/-- Number of successfully completed check-ins. -/
def successfulCount (cs : List Checkin) : Nat :=
  (cs.filter (fun c => !(isActive c) && c.outcome == some .success)).length

/-- Modelled from the spec: rounding to one decimal place as used by the
aggregation engine (round(x, 1)), here as half-up rounding on tenths. -/
def round1 (q : Rat) : Rat := (⌊q * 10 + 1 / 2⌋ : Int) / 10

/-- Modelled from the spec: the success rate of a set of check-ins —
round(successful / completed * 100, 1) with the denominator restricted
to completed check-ins, special-cased to 0 when it is 0 so that no rate
calculation divides by zero. -/
def successRate (cs : List Checkin) : Rat :=
  let completed := completedCount cs
  if completed = 0 then 0
  else round1 ((successfulCount cs : Rat) / (completed : Rat) * 100)

/-- The segmentation options the spec recognizes. -/
inductive SegmentBy where
  | none
  | type
  | subject
  deriving Repr, DecidableEq

/-- Modelled from the spec: validation of the segment_by query option
(the backend request validation is not in the repository snapshot).
Absent means the default none; the three recognized names parse to
their option; anything else is rejected with a descriptive message,
never coerced. -/
def parseSegmentBy : Option String → Except String SegmentBy
  | Option.none => .ok .none
  | some "none" => .ok .none
  | some "type" => .ok .type
  | some "subject" => .ok .subject
  | some s => .error ("Invalid segment_by value: " ++ s)

/-- Modelled from the spec: validation of the leaderboard limit (the
backend request validation is not in the repository snapshot).  Absent
means the default 5; a value of at least 1 is accepted; a non-positive
value is rejected as invalid input. -/
def parseLimit : Option Int → Except String Nat
  | Option.none => .ok 5
  | some n =>
      if 1 ≤ n then .ok n.toNat
      else .error ("limit must be at least 1, got " ++ toString n)

/-- Per-machine summary statistics as the spec describes MachineSummary:
identity, totals, success rate, and the average treatment duration over
completed check-ins only — absent (the sentinel) when the machine has no
completed check-in. -/
structure MachineSummary where
  id : Int
  name : String
  total_checkins : Int
  successful : Int
  failed : Int
  success_rate : Rat
  avg_healing_time_minutes : Option Rat
  deriving Repr, DecidableEq

/-- A MachineSummary plus the three baseline-relative deltas and the
baseline flag, as the spec describes ComparisonEntry. -/
structure ComparisonEntry where
  machine : MachineSummary
  success_rate_delta : Rat
  checkins_delta : Int
  healing_time_delta : Rat
  is_baseline : Bool
  deriving Repr, DecidableEq

/-- Modelled from the spec: the Comparison Engine's entry for one
machine against the baseline (the backend comparison computation is not
in the repository snapshot).  The baseline machine gets all three deltas
0 and the baseline flag; every other machine gets value-minus-baseline
deltas, with the healing-time delta 0-safe when either side has no
completed check-ins. -/
def compareEntry (baseline m : MachineSummary) : ComparisonEntry :=
  if m.id = baseline.id then
    { machine := m, success_rate_delta := 0, checkins_delta := 0,
      healing_time_delta := 0, is_baseline := true }
  else
    { machine := m,
      success_rate_delta := m.success_rate - baseline.success_rate,
      checkins_delta := m.total_checkins - baseline.total_checkins,
      healing_time_delta :=
        match m.avg_healing_time_minutes,
            baseline.avg_healing_time_minutes with
        | some x, some y => x - y
        | _, _ => 0,
      is_baseline := false }

/-- Modelled from the spec: the comparison table — one ComparisonEntry
per machine summary, against the given baseline. -/
def compareMachines (baseline : MachineSummary)
    (ms : List MachineSummary) : List ComparisonEntry :=
  ms.map (compareEntry baseline)

/-- A filter by a stronger predicate never keeps more elements. -/
theorem length_filter_le_of_imp {α : Type} (l : List α) (p q : α → Bool)
    (h : ∀ a, p a = true → q a = true) :
    (l.filter p).length ≤ (l.filter q).length := by
  induction l with
  | nil => simp
  | cons a t ih =>
    simp only [List.filter_cons]
    by_cases hp : p a = true
    · rw [if_pos hp, if_pos (h a hp)]
      simpa using ih
    · by_cases hq : q a = true <;> simp [hp, hq] <;> omega

/-- Successfully completed check-ins are a subset of the completed
ones. -/
theorem successfulCount_le_completedCount (cs : List Checkin) :
    successfulCount cs ≤ completedCount cs := by
  unfold successfulCount completedCount
  apply length_filter_le_of_imp
  intro a ha
  exact (Bool.and_eq_true _ _).mp ha |>.1

/-- Half-up rounding to one decimal keeps a value of [0, 100] inside
[0, 100]. -/
theorem round1_mem_Icc (q : Rat) (h0 : 0 ≤ q) (h1 : q ≤ 100) :
    0 ≤ round1 q ∧ round1 q ≤ 100 := by
  unfold round1
  constructor
  · apply div_nonneg _ (by norm_num)
    have hf : (0 : Int) ≤ ⌊q * 10 + 1 / 2⌋ :=
      Int.floor_nonneg.mpr (by positivity)
    exact_mod_cast hf
  · rw [div_le_iff₀ (by norm_num)]
    have hlt : ⌊q * 10 + 1 / 2⌋ < 1001 := by
      rw [Int.floor_lt]
      push_cast
      nlinarith
    have hle : ((⌊q * 10 + 1 / 2⌋ : Int) : Rat) ≤ 1000 := by
      exact_mod_cast Int.lt_add_one_iff.mp hlt
    linarith

/-- A completed check-in with an in-progress partner, used to
instantiate the rate theorems. -/
def sampleCompletedRow : Checkin :=
  { id := 1, subject_id := 25, machine_id := 2,
    arrived_at := "2024-01-01 10:00:00",
    healed_at := some "2024-01-01 10:30:00",
    outcome := some .success, initial_hp := 10, max_hp := 35 }

/-- An active check-in row (no completion timestamp, no outcome). -/
def sampleActiveRow : Checkin :=
  { id := 2, subject_id := 7, machine_id := 3,
    arrived_at := "2024-01-01 11:00:00", healed_at := none,
    outcome := none, initial_hp := 5, max_hp := 30 }

/-- Claim C5: for every input set of check-ins the success rate lies in
[0, 100], and it equals 0 when the completed count is 0 — the rate
computation special-cases the zero denominator instead of dividing by
it. -/
theorem successRate_bounds (cs : List Checkin) :
    (0 ≤ successRate cs ∧ successRate cs ≤ 100) ∧
    (completedCount cs = 0 → successRate cs = 0) := by
  refine ⟨?_, fun h => by simp [successRate, h]⟩
  by_cases h : completedCount cs = 0
  · simp [successRate, h]
  · have hpos : 0 < (completedCount cs : Rat) := by
      exact_mod_cast Nat.pos_of_ne_zero h
    have hle : (successfulCount cs : Rat) ≤ (completedCount cs : Rat) := by
      exact_mod_cast successfulCount_le_completedCount cs
    have hq0 : 0 ≤ (successfulCount cs : Rat) / (completedCount cs : Rat) * 100 := by
      positivity
    have hq100 : (successfulCount cs : Rat) / (completedCount cs : Rat) * 100 ≤ 100 := by
      have hdiv : (successfulCount cs : Rat) / (completedCount cs : Rat) ≤ 1 :=
        (div_le_one hpos).mpr hle
      nlinarith
    have := round1_mem_Icc _ hq0 hq100
    simpa [successRate, h] using this

/-- Witness for C5: a one-completed one-active set has its rate inside
[0, 100], and the empty set has rate 0. -/
theorem successRate_bounds_witness :
    (0 ≤ successRate [sampleCompletedRow, sampleActiveRow] ∧
      successRate [sampleCompletedRow, sampleActiveRow] ≤ 100) ∧
    successRate [] = 0 :=
  ⟨(successRate_bounds [sampleCompletedRow, sampleActiveRow]).1,
   (successRate_bounds []).2 rfl⟩

/-- Claim C3: segment_by recognizes exactly none, type and subject (an
absent value defaults to none), and every other value is rejected with a
descriptive validation failure, never silently coerced. -/
theorem parseSegmentBy_validation :
    parseSegmentBy Option.none = .ok .none ∧
    parseSegmentBy (some "none") = .ok .none ∧
    parseSegmentBy (some "type") = .ok .type ∧
    parseSegmentBy (some "subject") = .ok .subject ∧
    ∀ s : String, s ≠ "none" → s ≠ "type" → s ≠ "subject" →
      parseSegmentBy (some s) =
        .error ("Invalid segment_by value: " ++ s) := by
  refine ⟨rfl, rfl, rfl, rfl, ?_⟩
  intro s h1 h2 h3
  unfold parseSegmentBy
  split <;> simp_all

/-- Witness for C3 at the unrecognized value pokemon. -/
theorem parseSegmentBy_validation_witness :
    parseSegmentBy (some "pokemon") =
      .error ("Invalid segment_by value: " ++ "pokemon") :=
  parseSegmentBy_validation.2.2.2.2 "pokemon" (by decide) (by decide)
    (by decide)

/-- Claim C7: the leaderboard limit defaults to 5, any caller value of
at least 1 is accepted, and a non-positive value — in particular 0 — is
rejected as invalid input instead of being processed. -/
theorem parseLimit_validation :
    parseLimit Option.none = .ok 5 ∧
    (∀ n : Int, 1 ≤ n → parseLimit (some n) = .ok n.toNat) ∧
    (∀ n : Int, n ≤ 0 → ∃ msg, parseLimit (some n) = .error msg) ∧
    parseLimit (some 0) =
      .error ("limit must be at least 1, got " ++ toString (0 : Int)) := by
  refine ⟨rfl, ?_, ?_, ?_⟩
  · intro n h
    simp [parseLimit, h]
  · intro n h
    refine ⟨"limit must be at least 1, got " ++ toString n, ?_⟩
    simp only [parseLimit]
    rw [if_neg (by omega)]
  · simp only [parseLimit]
    rw [if_neg (by omega)]

/-- Witness for C7 at limit 7 (accepted) and limit -3 (rejected). -/
theorem parseLimit_validation_witness :
    parseLimit (some 7) = .ok (7 : Int).toNat ∧
    ∃ msg, parseLimit (some (-3)) = .error msg :=
  ⟨parseLimit_validation.2.1 7 (by decide),
   parseLimit_validation.2.2.1 (-3) (by decide)⟩

/-- Claim C6: in any comparison output the baseline machine's entry has
all three deltas exactly 0 with the baseline flag set, and every
non-baseline entry carries value-minus-baseline deltas — the rate and
check-ins deltas unconditionally, the healing-time delta whenever both
sides have an average (both have completed check-ins). -/
theorem compareMachines_deltas (b : MachineSummary)
    (ms : List MachineSummary) (e : ComparisonEntry)
    (he : e ∈ compareMachines b ms) :
    (e.machine.id = b.id →
        e.success_rate_delta = 0 ∧ e.checkins_delta = 0 ∧
        e.healing_time_delta = 0 ∧ e.is_baseline = true) ∧
    (e.machine.id ≠ b.id →
        e.success_rate_delta = e.machine.success_rate - b.success_rate ∧
        e.checkins_delta = e.machine.total_checkins - b.total_checkins ∧
        e.is_baseline = false ∧
        ∀ x y, e.machine.avg_healing_time_minutes = some x →
          b.avg_healing_time_minutes = some y →
          e.healing_time_delta = x - y) := by
  rcases List.mem_map.mp he with ⟨m, _, rfl⟩
  unfold compareEntry
  by_cases hid : m.id = b.id
  · rw [if_pos hid]
    exact ⟨fun _ => ⟨rfl, rfl, rfl, rfl⟩, fun hne => absurd hid hne⟩
  · rw [if_neg hid]
    refine ⟨fun h => absurd h hid, fun _ => ⟨rfl, rfl, rfl, ?_⟩⟩
    intro x y hx hy
    simp only at hx hy
    rw [show (match m.avg_healing_time_minutes,
          b.avg_healing_time_minutes with
        | some x, some y => x - y
        | _, _ => (0 : Rat)) = x - y by rw [hx, hy]]

/-- A concrete baseline machine summary. -/
def baselineSummary : MachineSummary :=
  { id := 1, name := "HM-01", total_checkins := 50, successful := 45,
    failed := 5, success_rate := 90, avg_healing_time_minutes := some 30 }

/-- A concrete non-baseline machine summary. -/
def otherSummary : MachineSummary :=
  { id := 2, name := "HM-02", total_checkins := 40, successful := 32,
    failed := 8, success_rate := 80, avg_healing_time_minutes := some 36 }

/-- Witness for C6 on two concrete machines: the non-baseline entry
carries the exact differences, the baseline entry zero deltas and the
flag. -/
theorem compareMachines_deltas_witness :
    (compareEntry baselineSummary otherSummary).success_rate_delta =
        otherSummary.success_rate - baselineSummary.success_rate ∧
    (compareEntry baselineSummary otherSummary).checkins_delta =
        otherSummary.total_checkins - baselineSummary.total_checkins ∧
    (compareEntry baselineSummary otherSummary).is_baseline = false ∧
    (compareEntry baselineSummary otherSummary).healing_time_delta =
        (36 : Rat) - 30 ∧
    (compareEntry baselineSummary baselineSummary).success_rate_delta = 0 ∧
    (compareEntry baselineSummary baselineSummary).is_baseline = true := by
  have hother := compareMachines_deltas baselineSummary
    [baselineSummary, otherSummary]
    (compareEntry baselineSummary otherSummary)
    (by simp [compareMachines])
  have hbase := compareMachines_deltas baselineSummary
    [baselineSummary, otherSummary]
    (compareEntry baselineSummary baselineSummary)
    (by simp [compareMachines])
  obtain ⟨hsr, hck, hfl, hht⟩ := hother.2 (by decide)
  obtain ⟨bsr, _, _, bfl⟩ := hbase.1 (by decide)
  exact ⟨hsr, hck, hfl, hht 36 30 rfl rfl, bsr, bfl⟩

/-- Claim C4 counterexample: the outcome values the repository actually
holds and sends on dismiss are the strings success and fail; in
particular for the success outcome the value is success, which is
neither of the claimed literals successful and failed. -/
theorem dismissOutcome_values_counterexample :
    dismissRequestUrl 1 .success = "/checkins/dismiss/1?outcome=success" ∧
    DismissOutcome.success.toParam = "success" ∧
    DismissOutcome.fail.toParam = "fail" ∧
    ¬ (DismissOutcome.success.toParam = "successful" ∨
        DismissOutcome.success.toParam = "failed") := by
  refine ⟨rfl, rfl, rfl, ?_⟩
  decide

/-- Claim C4 as amended: a dismissed check-in is no longer active, its
completion timestamp and its outcome are set together, and the outcome
is exactly one of the two values success and fail. -/
theorem dismissCheckin_setsOutcome (c : Checkin) (o : DismissOutcome)
    (t : String) :
    isActive (dismissCheckin c o t) = false ∧
    (dismissCheckin c o t).outcome = some o ∧
    (dismissCheckin c o t).healed_at = some t ∧
    (o.toParam = "success" ∨ o.toParam = "fail") ∧
    (∀ u : DismissOutcome, u = .success ∨ u = .fail) := by
  refine ⟨rfl, rfl, rfl, ?_, ?_⟩
  · cases o
    · exact Or.inl rfl
    · exact Or.inr rfl
  · intro u
    cases u
    · exact Or.inl rfl
    · exact Or.inr rfl
